import Mathlib

/-
  Verification of the cbapiclient / go-rest-http-blaster HTTP client
  (repository JoelHill/go-rest-http-blaster).

  This file gives a shallow embedding of the request-execution pipeline of
  the current-generation client source (src/unnamed/part_002, together with
  the package-scope file in src/unnamed/part_001 and src/invision_req014.go)
  and proves properties of it.  External collaborators (context providers,
  the transport, the json codec outcomes, the statsd delegate, the circuit
  breaker) are modelled at their interface boundary through an explicit
  environment record, exactly as the Go code consumes them.

  Conventions of the embedding:
  - Go byte slices are List Nat, Go strings are String.
  - The mutable header map is an association list updated in place by hset,
    mirroring Go map assignment semantics (last write wins per key).
  - A Go (value, bool) provider is an Option: some v models (v, true).
  - Go (result, error) pairs are modelled positionally; a nil error is none.
  - Decode targets (the interface prototypes) are identified by Nat ids;
    the success or failure of json.Unmarshal for a given body and target is
    supplied by the environment, since it is a property of the external
    json codec and of the caller-supplied target type.
  - A nil-pointer dereference is modelled by the ExchangeResult.crashed
    outcome; deferred functions still run while a Go program unwinds, so
    the deferred duration/cleanup block is applied on that path as well.
-/

set_option autoImplicit false

namespace Cbapiclient

/-- UTF-8 encoding of one code point, as a list of byte values. -/
def charUTF8 (n : Nat) : List Nat :=
  if n < 128 then [n]
  else if n < 2048 then [192 + n / 64, 128 + n % 64]
  else if n < 65536 then
    [224 + n / 4096, 128 + (n / 64) % 64, 128 + n % 64]
  else
    [240 + n / 262144, 128 + (n / 4096) % 64, 128 + (n / 64) % 64,
     128 + n % 64]

/-- Bytes of a Go string, as produced by a []byte(s) conversion: the UTF-8
encoding of its code points. -/
def strBytes (s : String) : List Nat :=
  (s.data.map (fun c => charUTF8 c.toNat)).flatten

-- Header-name constants from the const block of the client source.
def requestIDHeader : String := "Request-ID"
def requestSourceHeader : String := "Request-Source"
def callingServiceHeader : String := "Calling-Service"
def jsonType : String := "application/json"
def contentTypeHeader : String := "Content-Type"
def userAgentHeader : String := "User-Agent"
def contentLengthHeader : String := "Content-Length"
def acceptHeader : String := "Accept"

-- region header map

/-- Outgoing headers: a string-keyed map modelled as an association list. -/
abbrev Headers := List (String × String)

/-- Go map assignment m[k] = v: overwrite the entry if the key exists,
otherwise add it. -/
def hset : Headers → String → String → Headers
  | [], k, v => [(k, v)]
  | (k0, v0) :: rest, k, v =>
      if k0 = k then (k, v) :: rest else (k0, v0) :: hset rest k v

/-- Go map read m[k], distinguishing a missing key (none). -/
def hget : Headers → String → Option String
  | [], _ => none
  | (k0, v0) :: rest, k => if k0 = k then some v0 else hget rest k

/-- Go map deletion delete(m, k). -/
def hdel : Headers → String → Headers
  | [], _ => []
  | (k0, v0) :: rest, k =>
      if k0 = k then hdel rest k else (k0, v0) :: hdel rest k

/-- Key presence in the header map. -/
def hmem (hs : Headers) (k : String) : Bool :=
  (hget hs k).isSome

theorem hget_hset_self (hs : Headers) (k v : String) :
    hget (hset hs k v) k = some v := by
  induction hs with
  | nil => simp [hset, hget]
  | cons kv rest ih =>
      by_cases h : kv.1 = k
      · simp [hset, hget, h]
      · simp [hset, hget, h, ih]

theorem hget_hset_ne (hs : Headers) (k v k2 : String) (h : k ≠ k2) :
    hget (hset hs k v) k2 = hget hs k2 := by
  induction hs with
  | nil => simp [hset, hget, h]
  | cons kv rest ih =>
      by_cases h0 : kv.1 = k
      · simp [hset, hget, h0, h]
      · by_cases h2 : kv.1 = k2
        · subst h2
          simp [hset, hget, h0, Ne.symm h]
        · simp [hset, hget, h0, h2, ih]

theorem hmem_hset_self (hs : Headers) (k v : String) :
    hmem (hset hs k v) k = true := by
  simp [hmem, hget_hset_self]

theorem hmem_hset_ne (hs : Headers) (k v k2 : String) (h : k ≠ k2) :
    hmem (hset hs k v) k2 = hmem hs k2 := by
  simp [hmem, hget_hset_ne hs k v k2 h]

-- endregion

-- region error and event vocabulary

/-- The distinct error values produced or propagated by the client. -/
inductive GoError where
  /-- json.Marshal failed on the outgoing payload. -/
  | marshalError
  /-- non-json content type and the payload cannot be converted to bytes. -/
  | convertError
  /-- http.NewRequest rejected the method or URL. -/
  | createRequestError
  /-- the REQ014 request tracing header requirements check failed. -/
  | req014Error
  /-- the transport returned an error; the flag records net.Error.Timeout(). -/
  | transportError (isTimeout : Bool)
  /-- reading the response body failed. -/
  | readError
  /-- json decoding of the response body failed. -/
  | decodeError
  /-- the endpoint for the request was not set. -/
  | endpointError
  /-- an error produced by the circuit breaker itself; ids tell them apart. -/
  | breakerError (id : Nat)
deriving DecidableEq, Repr

/-- Log levels of the structured logger used by the client. -/
inductive LogLevel where
  | debugL
  | infoL
  | warnL
  | errorL
deriving DecidableEq, Repr

/-- Calls made to the statsd delegate, with the stat and tags passed. -/
inductive StatsdEvent where
  | incr (stat : String) (tags : List String)
  | timing (stat : String) (tags : List String)
deriving DecidableEq, Repr

def StatsdEvent.isIncr : StatsdEvent → Bool
  | .incr _ _ => true
  | .timing _ _ => false

def StatsdEvent.isTiming : StatsdEvent → Bool
  | .incr _ _ => false
  | .timing _ _ => true

-- endregion

-- region collaborators

/-- Decode targets (the caller-supplied prototypes) identified by id. -/
abbrev Proto := Nat

/-- The two views of a Go payload value that the encoder consults: its
json.Marshal outcome, and its shape when it already is a byte slice or a
string. -/
inductive RawView where
  | asBytes (bs : List Nat)
  | asString (s : String)
deriving DecidableEq, Repr

/-- An outgoing payload value.  jsonEnc is the (deterministic) result of
json.Marshal on the value, none meaning a marshal error; rawView is some
exactly when the dynamic type of the value is []byte or string. -/
structure Payload where
  jsonEnc : Option (List Nat)
  rawView : Option RawView
deriving DecidableEq, Repr

/-- The transport request object built by http.NewRequest; the client only
reads back its header map, so only that is kept. -/
structure HttpRequest where
  headers : Headers
deriving DecidableEq, Repr

/-- The transport response.  bodyRead is the result of ioutil.ReadAll on the
body (none models a read error).  contentType records the Content-Type
header of the response; the client source never reads it. -/
structure HttpResponse where
  statusCode : Int
  bodyRead : Option (List Nat)
  contentType : String
deriving DecidableEq, Repr

/-- Behaviour of a circuit breaker around one Execute call. -/
inductive Breaker where
  /-- Execute runs the wrapped function and returns its result unchanged. -/
  | passThrough
  /-- the breaker is open or half-open: Execute does not run the wrapped
  function and returns a nil result with its own error. -/
  | rejectWith (e : GoError)
  /-- Execute runs the wrapped function but returns its own pair instead
  (for example a breaker that maps an inner failure to a nil result). -/
  | runAndOverride (sc : Option Int) (e : Option GoError)
deriving DecidableEq, Repr

/-- One-exchange view of the process-wide configuration and of every
external collaborator the pipeline consults. -/
structure Env where
  /-- the package-level StrictREQ014 flag. -/
  strictREQ014 : Bool
  /-- the request-id provider: some v models a (v, true) return. -/
  requestIDProvider : Option String
  /-- the request-source provider: some v models a (v, true) return. -/
  requestSourceProvider : Option String
  /-- whether http.NewRequest accepts the method and URL of this client. -/
  newRequestOK : Bool
  /-- the response returned by the transport call; none models a nil
  response pointer, which in Go accompanies every transport error other
  than a redirect-policy failure. -/
  transportResp : Option HttpResponse
  /-- the error returned by the transport call. -/
  transportErr : Option GoError
  /-- success of json decoding of a body into a given target. -/
  jsonDecodeOk : List Nat → Proto → Bool
  /-- the package-level statsd success tag. -/
  statsdSuccessTag : String
  /-- the package-level statsd failure tag. -/
  statsdFailureTag : String
  /-- wall-clock duration measured for this exchange. -/
  elapsed : Nat

-- endregion

-- region client state

/-- The Client struct of the source: per-request mutable state. -/
structure Client where
  prototype : Option Proto
  errorPrototype : Option Proto
  /-- the status-code-keyed prototype map; the empty list models a nil map. -/
  customPrototypes : List (Int × Proto)
  /-- the destination URL; none models a nil endpoint pointer. -/
  endpoint : Option String
  duration : Nat
  cb : Option Breaker
  responseIsError : Bool
  headers : Headers
  method : String
  keepRawResponse : Bool
  rawresponse : List Nat
  /-- whether a statsd delegate has been configured. -/
  statsdClient : Bool
  statsdStat : String
  statsdTags : List String
  internalError : Bool
  statusCode : Int

/-- Lookup in the customPrototypes map (nil map reads give nil). -/
def plookup : List (Int × Proto) → Int → Option Proto
  | [], _ => none
  | (k, p) :: rest, sc => if k = sc then some p else plookup rest sc

/-- The req014HeaderCheck struct from src/invision_req014.go. -/
structure Req014HeaderCheck where
  requestIDOK : Bool := false
  requestSourceOK : Bool := false
  callingServiceOK : Bool := false
deriving DecidableEq, Repr

/-- check to see if REQ014 flags are closed. -/
def Req014HeaderCheck.ok (c : Req014HeaderCheck) : Bool :=
  c.requestIDOK && c.requestSourceOK && c.callingServiceOK

-- endregion

-- region client setters and accessors

/-- NAME is the name of this library. -/
def NAME : String := "cbapiclient"

/-- KeepRawResponse will cause the raw bytes from the http response to be
retained. -/
def KeepRawResponse (c : Client) : Client :=
  { c with keepRawResponse := true }

/-- RawResponse is a shortcut to access the raw bytes returned in the http
response. -/
def RawResponse (c : Client) : List Nat :=
  if c.keepRawResponse then c.rawresponse else []

/-- One call of the RawResponse method on the client state: the method
reads but never mutates the client, which the returned state records. -/
def rawResponseCall (c : Client) : List Nat × Client :=
  (RawResponse c, c)

/-- StatusCodeIsError is a shortcut to determine if the status code is
considered an error. -/
def StatusCodeIsError (c : Client) : Bool :=
  c.responseIsError

/-- WillSaturate assigns the target saturated when the request succeeds. -/
def WillSaturate (c : Client) (proto : Option Proto) : Client :=
  { c with prototype := proto }

/-- WillSaturateOnError assigns the target saturated when the request
fails. -/
def WillSaturateOnError (c : Client) (proto : Option Proto) : Client :=
  { c with errorPrototype := proto }

/-- Go map assignment for the customPrototypes map. -/
def plset : List (Int × Proto) → Int → Proto → List (Int × Proto)
  | [], sc, p => [(sc, p)]
  | (k, p0) :: rest, sc, p =>
      if k = sc then (sc, p) :: rest else (k, p0) :: plset rest sc p

/-- WillSaturateWithStatusCode assigns the target saturated when a specific
response code is encountered. -/
def WillSaturateWithStatusCode (c : Client) (statusCode : Int) (proto : Proto) :
    Client :=
  { c with customPrototypes := plset c.customPrototypes statusCode proto }

/-- SetCircuitBreaker sets the optional circuit breaker interface that
wraps the http request. -/
def SetCircuitBreaker (c : Client) (cb : Breaker) : Client :=
  { c with cb := some cb }

/-- SetStatsdDelegate will set the statsd client, the stat, and tags. -/
def SetStatsdDelegate (c : Client) (stat : String) (tags : List String) :
    Client :=
  let stat := if stat = "" then "default" else stat
  { c with statsdClient := true, statsdTags := tags,
           statsdStat := NAME ++ "." ++ stat }

/-- SetContentType will set the request content type; a non-json type also
removes the Accept header, and json restores it. -/
def SetContentType (c : Client) (ct : String) : Client :=
  let c := { c with headers := hset c.headers contentTypeHeader ct }
  if ct ≠ jsonType then
    { c with headers := hdel c.headers acceptHeader }
  else
    { c with headers := hset c.headers acceptHeader jsonType }

/-- SetHeader allows for custom http headers, routing the content type
through SetContentType. -/
def SetHeader (c : Client) (key value : String) : Client :=
  if key = contentTypeHeader then SetContentType c value
  else { c with headers := hset c.headers key value }

-- endregion

-- region pipeline steps

/-- applyContextDependentHeaders will apply headers right before the
request is launched. -/
def applyContextDependentHeaders (env : Env) (c : Client) : Client :=
  let c :=
    match env.requestIDProvider with
    | some requestID =>
        { c with headers := hset c.headers requestIDHeader requestID }
    | none => c
  match env.requestSourceProvider with
  | some requestSource =>
      { c with headers := hset c.headers requestSourceHeader requestSource }
  | none => c

/-- reports the status code from the response (the Incr call of the statsd
delegate, when one is configured). -/
def statsdReportResponse (env : Env) (c : Client) : List StatsdEvent :=
  if c.statsdClient then
    let tags := c.statsdTags ++ ["status_code:" ++ toString c.statusCode]
    let tags := tags ++
      [if c.responseIsError then env.statsdFailureTag else env.statsdSuccessTag]
    [.incr c.statsdStat tags]
  else []

/-- reports the duration of the request (the Timing call of the statsd
delegate, when one is configured). -/
def statsdReportDuration (env : Env) (c : Client) : List StatsdEvent :=
  if c.statsdClient then
    let tags := c.statsdTags ++
      [if c.responseIsError then env.statsdFailureTag else env.statsdSuccessTag]
    [.timing c.statsdStat tags]
  else []

/-- close tracking: emits the two statsd measurements unless the client is
in an internal-error state (the external segment and span finalization
carry no observable state here). -/
def cleanup (env : Env) (c : Client) : List StatsdEvent :=
  if !c.internalError then
    statsdReportResponse env c ++ statsdReportDuration env c
  else []

/-- One iteration of the header loop of conformsToReq014: copy the header
onto the transport request and open the matching compliance flag. -/
def req014Step (acc : HttpRequest × Req014HeaderCheck) (kv : String × String) :
    HttpRequest × Req014HeaderCheck :=
  let request := HttpRequest.mk (hset acc.1.headers kv.1 kv.2)
  let chk :=
    if kv.1 = requestIDHeader then { acc.2 with requestIDOK := true }
    else if kv.1 = requestSourceHeader then { acc.2 with requestSourceOK := true }
    else if kv.1 = callingServiceHeader then { acc.2 with callingServiceOK := true }
    else acc.2
  (request, chk)

/-- make sure the request conforms to invision request tracing policy: the
loop copies every client header onto the transport request while flagging
the three mandated tracing headers, then errors in strict mode when one of
the flags stayed closed. -/
def conformsToReq014 (strict : Bool) (c : Client) (request : HttpRequest) :
    HttpRequest × Option GoError :=
  let folded := c.headers.foldl req014Step (request, {})
  if strict && !folded.2.ok then (folded.1, some .req014Error)
  else (folded.1, none)

/-- marshal/serialize the outgoing payload if it exists; on success the
content-length header is set to the byte count of the encoding. -/
def processOutgoingPayload (c : Client) (payload : Option Payload) :
    Client × Except GoError (List Nat) :=
  match payload with
  | none => (c, .ok [])
  | some p =>
      if hget c.headers contentTypeHeader = some jsonType then
        match p.jsonEnc with
        | none => (c, .error .marshalError)
        | some bs =>
            let hs := hset c.headers contentLengthHeader (toString bs.length)
            ({ c with headers := hs }, .ok bs)
      else
        match p.rawView with
        | some (.asBytes bs) =>
            let hs := hset c.headers contentLengthHeader (toString bs.length)
            ({ c with headers := hs }, .ok bs)
        | some (.asString s) =>
            let bs := strBytes s
            let hs := hset c.headers contentLengthHeader (toString bs.length)
            ({ c with headers := hs }, .ok bs)
        | none => (c, .error .convertError)

/-- Result of processResponseData: the updated client, the resolved decode
target, the target actually saturated, the log entries, and the error. -/
structure RespProcessing where
  client : Client
  resolved : Option Proto
  saturated : Option Proto
  logs : List LogLevel
  err : Option GoError

/-- process response: resolve the decode target by precedence (exact status
code, then error target on an error response, then success target), then
either json-decode into it or, for a non-json content type, stash the raw
bytes and log at info level. -/
def processResponseData (env : Env) (c : Client) (payload : List Nat)
    (contentType : String) : RespProcessing :=
  if payload.length > 0 then
    let unmarshalTo : Option Proto :=
      match plookup c.customPrototypes c.statusCode with
      | some p => some p
      | none =>
          if c.responseIsError then c.errorPrototype else c.prototype
    match unmarshalTo with
    | some proto =>
        if contentType = jsonType then
          if env.jsonDecodeOk payload proto then
            ⟨c, some proto, some proto, [], none⟩
          else
            ⟨c, some proto, none, [], some .decodeError⟩
        else
          ⟨{ c with rawresponse := payload }, some proto, none,
           [.infoL], none⟩
    | none => ⟨c, none, none, [], none⟩
  else ⟨c, none, none, [], none⟩

-- endregion

-- region exchange traces

/-- Outcome of one doInternal or Do run: either a returned (status, error)
pair, or a run that dereferenced a nil pointer. -/
inductive ExchangeResult where
  | ret (status : Int) (err : Option GoError)
  | crashed
deriving DecidableEq, Repr

/-- Everything observable about one exchange: the final client state,
whether the transport was invoked, the statsd calls, the log entries, the
resolved and saturated decode targets, and the outcome. -/
structure ExchangeTrace where
  client : Client
  transportCalled : Bool
  statsd : List StatsdEvent
  logs : List LogLevel
  resolved : Option Proto
  saturated : Option Proto
  result : ExchangeResult

/-- The deferred block of doInternal: record the elapsed duration, then run
cleanup.  Go runs deferred functions on every exit, also while unwinding
after a nil dereference, so every doInternal exit path funnels through
this. -/
def finishExchange (env : Env) (c : Client) (transportCalled : Bool)
    (logs : List LogLevel) (resolved saturated : Option Proto)
    (res : ExchangeResult) : ExchangeTrace :=
  let c := { c with duration := env.elapsed }
  ⟨c, transportCalled, cleanup env c, logs, resolved, saturated, res⟩

/-- the request cannot be launched: log, force the internal-error state and
the internal-error status code. -/
def failBeforeRequest (env : Env) (c : Client) (logs : List LogLevel)
    (e : GoError) : ExchangeTrace :=
  let c := { c with statusCode := 500, internalError := true }
  finishExchange env c false (logs ++ [.errorL]) none none (.ret 500 (some e))

/-- the request happened, but was an error: log and force the
internal-error status code, without entering the internal-error state. -/
def failAfterRequest (env : Env) (c : Client) (logs : List LogLevel)
    (resolved saturated : Option Proto) (e : GoError) : ExchangeTrace :=
  let c := { c with statusCode := 500 }
  finishExchange env c true (logs ++ [.errorL]) resolved saturated
    (.ret 500 (some e))

/-- The tail of doInternal after the transport returned a non-nil
response: record the status code, set the error-classification flag,
surface a transport error, read the body, optionally retain the raw bytes,
and process the response data against the Content-Type header of the
outgoing request. -/
def handleResponse (env : Env) (c : Client) (request : HttpRequest)
    (resp : HttpResponse) : ExchangeTrace :=
  let c := { c with statusCode := resp.statusCode }
  let isErr := decide (resp.statusCode < 200) || decide (resp.statusCode ≥ 300)
  let c := { c with responseIsError := isErr }
  match env.transportErr with
  | some e =>
      let timeoutLogs : List LogLevel :=
        match e with
        | .transportError true => [.errorL]
        | _ => []
      failAfterRequest env c ([.debugL] ++ timeoutLogs) none none e
  | none =>
      match resp.bodyRead with
      | none => failAfterRequest env c [.debugL] none none .readError
      | some body =>
          let c :=
            if c.keepRawResponse then { c with rawresponse := body } else c
          let ct := (hget request.headers contentTypeHeader).getD ""
          let pr := processResponseData env c body ct
          match pr.err with
          | some e =>
              failAfterRequest env pr.client ([.debugL] ++ pr.logs)
                pr.resolved pr.saturated e
          | none =>
              finishExchange env pr.client true
                ([.debugL] ++ pr.logs ++ [.debugL]) pr.resolved pr.saturated
                (.ret pr.client.statusCode none)

/-- doInternal will perform the actual request: apply context headers,
encode the payload, build the transport request, run the REQ014 gate,
invoke the transport, classify the status, read and process the body.  The
source assigns response.StatusCode before inspecting the transport error,
so a nil transport response crashes the exchange at that assignment. -/
def doInternal (env : Env) (c : Client) (payload : Option Payload) :
    ExchangeTrace :=
  let c := applyContextDependentHeaders env c
  match processOutgoingPayload c payload with
  | (c, .error e) => failBeforeRequest env c [] e
  | (c, .ok _payloadBytes) =>
      if !env.newRequestOK then
        failBeforeRequest env c [] .createRequestError
      else
        match conformsToReq014 env.strictREQ014 c (HttpRequest.mk []) with
        | (_request, some e) => failBeforeRequest env c [] e
        | (request, none) =>
            match env.transportResp with
            | none =>
                -- response is nil: the assignment of response.StatusCode
                -- dereferences it and the goroutine unwinds through the
                -- deferred duration/cleanup block.
                finishExchange env c true [.debugL] none none .crashed
            | some resp => handleResponse env c request resp

/-- Do will prepare the request and either run it directly or from within a
circuit breaker; a nil status slot coming back from the breaker is mapped
to the fixed failed-dependency status 424. -/
def Do (env : Env) (c : Client) (_method : String) (payload : Option Payload) :
    ExchangeTrace :=
  match c.endpoint with
  | none =>
      let c := { c with internalError := true }
      ⟨c, false, [], [.errorL], none, none, .ret 500 (some .endpointError)⟩
  | some _ =>
      match c.cb with
      | none => doInternal env c payload
      | some .passThrough => doInternal env c payload
      | some (.rejectWith e) =>
          ⟨c, false, [], [.warnL], none, none, .ret 424 (some e)⟩
      | some (.runAndOverride sc err) =>
          let t := doInternal env c payload
          match t.result with
          | .crashed => t
          | .ret _ _ =>
              match sc with
              | none =>
                  { t with logs := t.logs ++ [.warnL],
                           result := .ret 424 err }
              | some n => { t with result := .ret n err }

-- endregion

-- region derived definitions and concrete inputs

/-- All three mandated headers are present in the given header map. -/
def presentAll3 (hs : Headers) : Bool :=
  hmem hs requestIDHeader && hmem hs requestSourceHeader &&
    hmem hs callingServiceHeader

/-- NewClient initializes a client for an endpoint with the default json
content negotiation headers, the package user agent and service name. -/
def NewClient (uri userAgent serviceName : String) : Client :=
  { prototype := none, errorPrototype := none, customPrototypes := [],
    endpoint := some uri, duration := 0, cb := none,
    responseIsError := false,
    headers := [(userAgentHeader, userAgent), (contentTypeHeader, jsonType),
                (callingServiceHeader, serviceName),
                (acceptHeader, jsonType)],
    method := "GET", keepRawResponse := false, rawresponse := [],
    statsdClient := false, statsdStat := "", statsdTags := [],
    internalError := false, statusCode := 0 }

/-- A freshly constructed client pointed at a concrete endpoint. -/
def sampleClient : Client :=
  NewClient "http://api.example.test" "unit-test" "unit-test"

/-- A 200 response with a small json body. -/
def resp200 : HttpResponse :=
  { statusCode := 200, bodyRead := some [123, 125],
    contentType := jsonType }

/-- A 403 response with a small json body. -/
def resp403 : HttpResponse :=
  { statusCode := 403, bodyRead := some [123, 125],
    contentType := jsonType }

/-- A 404 response with an empty body. -/
def resp404empty : HttpResponse :=
  { statusCode := 404, bodyRead := some [], contentType := jsonType }

/-- A benign environment: strict tracing on, both providers present, a 200
response with a small json body that decodes into any target. -/
def sampleEnv : Env :=
  { strictREQ014 := true, requestIDProvider := some "rid-0001",
    requestSourceProvider := some "unit-test-source", newRequestOK := true,
    transportResp := some { statusCode := 200, bodyRead := some [123, 125],
                            contentType := jsonType },
    transportErr := none, jsonDecodeOk := fun _ _ => true,
    statsdSuccessTag := "processed:success",
    statsdFailureTag := "processed:failure", elapsed := 7 }

/-- The benign environment with the transport answering 403. -/
def env403 : Env := { sampleEnv with transportResp := some resp403 }

/-- A client with a generic error prototype and a 403-specific
prototype. -/
def client403 : Client :=
  WillSaturateWithStatusCode (WillSaturateOnError sampleClient (some 7))
    403 9

/-- The benign environment with the transport answering an empty 404. -/
def env404 : Env := { sampleEnv with transportResp := some resp404empty }

/-- The body of the non-json response of the html test scene. -/
def nonJsonBody : List Nat := strBytes "<this is html>"

/-- A client expecting a json success payload (a success prototype is
registered) with raw-response retention left disabled. -/
def nonJsonClient : Client := WillSaturate sampleClient (some 1)

/-- An environment whose transport answers 200 with Content-Type text/html
and the body of the html scene; the json codec rejects that body for every
target. -/
def nonJsonEnv : Env :=
  { sampleEnv with
      transportResp := some { statusCode := 200,
                              bodyRead := some nonJsonBody,
                              contentType := "text/html" },
      jsonDecodeOk := fun _ _ => false }

/-- An environment whose transport call times out: the error is a
net.Error with Timeout() true and the response pointer is nil. -/
def timeoutEnv : Env :=
  { sampleEnv with transportResp := none,
                   transportErr := some (.transportError true) }

-- endregion

-- region helper lemmas

theorem requestID_ne_requestSource : requestIDHeader ≠ requestSourceHeader := by
  decide

theorem requestID_ne_callingService : requestIDHeader ≠ callingServiceHeader := by
  decide

theorem requestSource_ne_callingService :
    requestSourceHeader ≠ callingServiceHeader := by
  decide

theorem contentType_ne_requestID : contentTypeHeader ≠ requestIDHeader := by
  decide

theorem contentType_ne_requestSource :
    contentTypeHeader ≠ requestSourceHeader := by
  decide

theorem contentLength_ne_requestID : contentLengthHeader ≠ requestIDHeader := by
  decide

theorem contentLength_ne_requestSource :
    contentLengthHeader ≠ requestSourceHeader := by
  decide

theorem contentLength_ne_callingService :
    contentLengthHeader ≠ callingServiceHeader := by
  decide

/-- applyContextDependentHeaders only rewrites the header map. -/
theorem applyContextDependentHeaders_frame (env : Env) (c : Client) :
    ∃ hs, applyContextDependentHeaders env c = { c with headers := hs } := by
  unfold applyContextDependentHeaders
  cases env.requestIDProvider <;> cases env.requestSourceProvider <;>
    exact ⟨_, rfl⟩

/-- applyContextDependentHeaders leaves every header other than Request-ID
and Request-Source untouched. -/
theorem applyContextDependentHeaders_hget_other (env : Env) (c : Client)
    (k : String) (h1 : k ≠ requestIDHeader) (h2 : k ≠ requestSourceHeader) :
    hget (applyContextDependentHeaders env c).headers k = hget c.headers k := by
  unfold applyContextDependentHeaders
  cases env.requestIDProvider <;> cases env.requestSourceProvider <;>
    simp [hget_hset_ne _ _ _ _ (Ne.symm h1), hget_hset_ne _ _ _ _ (Ne.symm h2)]


theorem requestSource_ne_requestID : requestSourceHeader ≠ requestIDHeader := by
  decide

theorem callingService_ne_requestID : callingServiceHeader ≠ requestIDHeader := by
  decide

theorem callingService_ne_requestSource :
    callingServiceHeader ≠ requestSourceHeader := by
  decide

/-- processOutgoingPayload only rewrites the header map of the client. -/
theorem processOutgoingPayload_frame (c : Client) (p : Option Payload) :
    ∃ hs, (processOutgoingPayload c p).1 = { c with headers := hs } := by
  rcases p with _ | p
  · exact ⟨c.headers, rfl⟩
  · unfold processOutgoingPayload
    dsimp only
    by_cases hct : hget c.headers contentTypeHeader = some jsonType
    · rw [if_pos hct]
      rcases p.jsonEnc with _ | bs
      · exact ⟨c.headers, rfl⟩
      · exact ⟨_, rfl⟩
    · rw [if_neg hct]
      rcases p.rawView with _ | (bs | s)
      · exact ⟨c.headers, rfl⟩
      · exact ⟨_, rfl⟩
      · exact ⟨_, rfl⟩

/-- processOutgoingPayload changes the header map only at Content-Length. -/
theorem processOutgoingPayload_hget_other (c : Client) (p : Option Payload)
    (k : String) (hk : k ≠ contentLengthHeader) :
    hget (processOutgoingPayload c p).1.headers k = hget c.headers k := by
  rcases p with _ | p
  · rfl
  · unfold processOutgoingPayload
    dsimp only
    by_cases hct : hget c.headers contentTypeHeader = some jsonType
    · rw [if_pos hct]
      rcases p.jsonEnc with _ | bs
      · rfl
      · simp [hget_hset_ne _ _ _ _ (Ne.symm hk)]
    · rw [if_neg hct]
      rcases p.rawView with _ | (bs | s)
      · rfl
      · simp [hget_hset_ne _ _ _ _ (Ne.symm hk)]
      · simp [hget_hset_ne _ _ _ _ (Ne.symm hk)]

/-- processResponseData only rewrites the raw-response buffer. -/
theorem processResponseData_frame (env : Env) (c : Client) (body : List Nat)
    (ct : String) :
    ∃ rr, (processResponseData env c body ct).client = { c with rawresponse := rr } := by
  unfold processResponseData
  dsimp only
  split
  · split
    · split
      · split
        · exact ⟨c.rawresponse, rfl⟩
        · exact ⟨c.rawresponse, rfl⟩
      · exact ⟨body, rfl⟩
    · exact ⟨c.rawresponse, rfl⟩
  · exact ⟨c.rawresponse, rfl⟩

/-- Key membership at the head of the header map. -/
theorem hmem_cons (kv : String × String) (rest : Headers) (k : String) :
    hmem (kv :: rest) k = (decide (kv.1 = k) || hmem rest k) := by
  by_cases h : kv.1 = k <;> simp [hmem, hget, h]

/-- Effect of one loop iteration on the request-id flag. -/
theorem req014Step_requestIDOK (acc : HttpRequest × Req014HeaderCheck)
    (kv : String × String) :
    ((req014Step acc kv).2).requestIDOK =
      (acc.2.requestIDOK || decide (kv.1 = requestIDHeader)) := by
  unfold req014Step
  by_cases h1 : kv.1 = requestIDHeader
  · simp [h1]
  · by_cases h2 : kv.1 = requestSourceHeader
    · simp [h1, h2, requestSource_ne_requestID]
    · by_cases h3 : kv.1 = callingServiceHeader
      · simp [h1, h2, h3, callingService_ne_requestID,
          callingService_ne_requestSource]
      · simp [h1, h2, h3]

/-- Effect of one loop iteration on the request-source flag. -/
theorem req014Step_requestSourceOK (acc : HttpRequest × Req014HeaderCheck)
    (kv : String × String) :
    ((req014Step acc kv).2).requestSourceOK =
      (acc.2.requestSourceOK || decide (kv.1 = requestSourceHeader)) := by
  unfold req014Step
  by_cases h1 : kv.1 = requestIDHeader
  · simp [h1, requestID_ne_requestSource]
  · by_cases h2 : kv.1 = requestSourceHeader
    · simp [h1, h2, requestSource_ne_requestID]
    · by_cases h3 : kv.1 = callingServiceHeader
      · simp [h1, h2, h3, callingService_ne_requestID,
          callingService_ne_requestSource]
      · simp [h1, h2, h3]

/-- Effect of one loop iteration on the calling-service flag. -/
theorem req014Step_callingServiceOK (acc : HttpRequest × Req014HeaderCheck)
    (kv : String × String) :
    ((req014Step acc kv).2).callingServiceOK =
      (acc.2.callingServiceOK || decide (kv.1 = callingServiceHeader)) := by
  unfold req014Step
  by_cases h1 : kv.1 = requestIDHeader
  · simp [h1, requestID_ne_callingService]
  · by_cases h2 : kv.1 = requestSourceHeader
    · simp [h1, h2, requestSource_ne_requestID,
        requestSource_ne_callingService]
    · by_cases h3 : kv.1 = callingServiceHeader
      · simp [h1, h2, h3, callingService_ne_requestID,
          callingService_ne_requestSource]
      · simp [h1, h2, h3]

/-- The request-id compliance flag after the header loop: open iff it was
already open or the Request-ID key occurs in the header map. -/
theorem foldl_req014_requestIDOK (hs : Headers)
    (acc : HttpRequest × Req014HeaderCheck) :
    ((hs.foldl req014Step acc).2).requestIDOK =
      (acc.2.requestIDOK || hmem hs requestIDHeader) := by
  induction hs generalizing acc with
  | nil => simp [hmem, hget]
  | cons kv rest ih =>
      rw [List.foldl_cons, ih, req014Step_requestIDOK, hmem_cons,
        Bool.or_assoc]

/-- The request-source compliance flag after the header loop. -/
theorem foldl_req014_requestSourceOK (hs : Headers)
    (acc : HttpRequest × Req014HeaderCheck) :
    ((hs.foldl req014Step acc).2).requestSourceOK =
      (acc.2.requestSourceOK || hmem hs requestSourceHeader) := by
  induction hs generalizing acc with
  | nil => simp [hmem, hget]
  | cons kv rest ih =>
      rw [List.foldl_cons, ih, req014Step_requestSourceOK, hmem_cons,
        Bool.or_assoc]

/-- The calling-service compliance flag after the header loop. -/
theorem foldl_req014_callingServiceOK (hs : Headers)
    (acc : HttpRequest × Req014HeaderCheck) :
    ((hs.foldl req014Step acc).2).callingServiceOK =
      (acc.2.callingServiceOK || hmem hs callingServiceHeader) := by
  induction hs generalizing acc with
  | nil => simp [hmem, hget]
  | cons kv rest ih =>
      rw [List.foldl_cons, ih, req014Step_callingServiceOK, hmem_cons,
        Bool.or_assoc]

/-- The closed-flags test after the header loop, starting from the all-false
check, is exactly presence of the three mandated keys. -/
theorem foldl_req014_ok (hs : Headers) (req : HttpRequest) :
    ((hs.foldl req014Step (req, {})).2).ok = presentAll3 hs := by
  unfold Req014HeaderCheck.ok presentAll3
  rw [foldl_req014_requestIDOK, foldl_req014_requestSourceOK,
    foldl_req014_callingServiceOK]
  rfl

/-- The compliance gate errors exactly when strict mode is on and one of
the three mandated header keys is missing from the client header map. -/
theorem conformsToReq014_err_iff (strict : Bool) (c : Client)
    (req : HttpRequest) :
    ((conformsToReq014 strict c req).2).isSome =
      (strict && !presentAll3 c.headers) := by
  simp only [conformsToReq014, foldl_req014_ok]
  split <;> simp_all

/-- In strict mode with a missing mandated header the gate returns the
req014 error. -/
theorem conformsToReq014_blocks (strict : Bool) (c : Client)
    (req : HttpRequest) (hstrict : strict = true)
    (hmiss : presentAll3 c.headers = false) :
    (conformsToReq014 strict c req).2 = some .req014Error := by
  simp only [conformsToReq014, foldl_req014_ok, hstrict, hmiss]
  rfl

/-- Outside of the strict-and-missing condition the gate passes. -/
theorem conformsToReq014_passes (strict : Bool) (c : Client)
    (req : HttpRequest)
    (h : strict = false ∨ presentAll3 c.headers = true) :
    (conformsToReq014 strict c req).2 = none := by
  simp only [conformsToReq014, foldl_req014_ok]
  rcases h with h | h <;> simp [h]

/-- With an unset circuit breaker and a set endpoint, Do is doInternal. -/
theorem Do_eq_doInternal (env : Env) (c : Client) (m : String)
    (payload : Option Payload) (u : String) (hep : c.endpoint = some u)
    (hcb : c.cb = none) :
    Do env c m payload = doInternal env c payload := by
  unfold Do
  rw [hep, hcb]

theorem finishExchange_result (env : Env) (c : Client) (tc : Bool)
    (logs : List LogLevel) (r s : Option Proto) (res : ExchangeResult) :
    (finishExchange env c tc logs r s res).result = res := rfl

theorem finishExchange_transportCalled (env : Env) (c : Client) (tc : Bool)
    (logs : List LogLevel) (r s : Option Proto) (res : ExchangeResult) :
    (finishExchange env c tc logs r s res).transportCalled = tc := rfl

theorem finishExchange_statsd (env : Env) (c : Client) (tc : Bool)
    (logs : List LogLevel) (r s : Option Proto) (res : ExchangeResult) :
    (finishExchange env c tc logs r s res).statsd =
      cleanup env { c with duration := env.elapsed } := rfl

theorem failBeforeRequest_result (env : Env) (c : Client)
    (logs : List LogLevel) (e : GoError) :
    (failBeforeRequest env c logs e).result = .ret 500 (some e) := rfl

theorem failBeforeRequest_transportCalled (env : Env) (c : Client)
    (logs : List LogLevel) (e : GoError) :
    (failBeforeRequest env c logs e).transportCalled = false := rfl

theorem failBeforeRequest_statsd (env : Env) (c : Client)
    (logs : List LogLevel) (e : GoError) :
    (failBeforeRequest env c logs e).statsd = [] := rfl

theorem failAfterRequest_result (env : Env) (c : Client)
    (logs : List LogLevel) (r s : Option Proto) (e : GoError) :
    (failAfterRequest env c logs r s e).result = .ret 500 (some e) := rfl

theorem failAfterRequest_transportCalled (env : Env) (c : Client)
    (logs : List LogLevel) (r s : Option Proto) (e : GoError) :
    (failAfterRequest env c logs r s e).transportCalled = true := rfl

/-- cleanup is silent while the client is in the internal-error state. -/
theorem cleanup_of_internalError (env : Env) (c : Client)
    (h : c.internalError = true) : cleanup env c = [] := by
  unfold cleanup
  simp [h]

/-- cleanup is silent without a configured statsd delegate. -/
theorem cleanup_of_noStatsd (env : Env) (c : Client)
    (h : c.statsdClient = false) : cleanup env c = [] := by
  unfold cleanup statsdReportResponse statsdReportDuration
  split <;> simp [h]

/-- cleanup outside the internal-error state with a configured delegate
emits exactly one counter increment and one timing measurement. -/
theorem cleanup_counts (env : Env) (c : Client)
    (hie : c.internalError = false) (hsc : c.statsdClient = true) :
    ((cleanup env c).filter StatsdEvent.isIncr).length = 1 ∧
      ((cleanup env c).filter StatsdEvent.isTiming).length = 1 := by
  unfold cleanup statsdReportResponse statsdReportDuration
  simp [hie, hsc, StatsdEvent.isIncr, StatsdEvent.isTiming]

/-- Encoding the payload does not disturb the three mandated headers. -/
theorem presentAll3_processOutgoingPayload (c : Client) (p : Option Payload) :
    presentAll3 (processOutgoingPayload c p).1.headers =
      presentAll3 c.headers := by
  unfold presentAll3 hmem
  rw [processOutgoingPayload_hget_other c p _ (Ne.symm contentLength_ne_requestID),
    processOutgoingPayload_hget_other c p _ (Ne.symm contentLength_ne_requestSource),
    processOutgoingPayload_hget_other c p _ (Ne.symm contentLength_ne_callingService)]

/-- The transport-called flag of every handleResponse exit is set. -/
theorem handleResponse_transportCalled (env : Env) (c : Client)
    (request : HttpRequest) (resp : HttpResponse) :
    (handleResponse env c request resp).transportCalled = true := by
  unfold handleResponse
  dsimp only
  split
  · rfl
  · split
    · rfl
    · split <;> rfl

/-- Exhaustive shape of a doInternal run: encode failure, request build
failure, gate failure, or a dispatched run continuing into the
nil-response crash or into handleResponse. -/
theorem doInternal_cases (env : Env) (c : Client) (payload : Option Payload) :
    (∃ c2 e,
      processOutgoingPayload (applyContextDependentHeaders env c) payload =
        (c2, .error e) ∧
      doInternal env c payload = failBeforeRequest env c2 [] e) ∨
    (∃ c2 bs,
      processOutgoingPayload (applyContextDependentHeaders env c) payload =
        (c2, .ok bs) ∧
      env.newRequestOK = false ∧
      doInternal env c payload =
        failBeforeRequest env c2 [] .createRequestError) ∨
    (∃ c2 bs request e,
      processOutgoingPayload (applyContextDependentHeaders env c) payload =
        (c2, .ok bs) ∧
      env.newRequestOK = true ∧
      conformsToReq014 env.strictREQ014 c2 (HttpRequest.mk []) =
        (request, some e) ∧
      doInternal env c payload = failBeforeRequest env c2 [] e) ∨
    (∃ c2 bs request,
      processOutgoingPayload (applyContextDependentHeaders env c) payload =
        (c2, .ok bs) ∧
      env.newRequestOK = true ∧
      conformsToReq014 env.strictREQ014 c2 (HttpRequest.mk []) =
        (request, none) ∧
      ((env.transportResp = none ∧
          doInternal env c payload =
            finishExchange env c2 true [.debugL] none none .crashed) ∨
        (∃ resp, env.transportResp = some resp ∧
          doInternal env c payload = handleResponse env c2 request resp))) := by
  unfold doInternal
  dsimp only
  split
  next c2 e heq => exact .inl ⟨c2, e, heq, rfl⟩
  next c2 bs heq =>
    split
    next hnr =>
      exact .inr (.inl ⟨c2, bs, heq, by simpa using hnr, rfl⟩)
    next hnr =>
      split
      next req e heq2 =>
        exact .inr (.inr (.inl ⟨c2, bs, req, e, heq, by simpa using hnr,
          heq2, rfl⟩))
      next req heq2 =>
        split
        next hT =>
          exact .inr (.inr (.inr ⟨c2, bs, req, heq, by simpa using hnr,
            heq2, .inl ⟨hT, rfl⟩⟩))
        next resp hT =>
          exact .inr (.inr (.inr ⟨c2, bs, req, heq, by simpa using hnr,
            heq2, .inr ⟨resp, hT, rfl⟩⟩))

/-- A doInternal run that never invoked the transport failed before the
request in one of the three pre-dispatch exits. -/
theorem doInternal_not_dispatched (env : Env) (c : Client)
    (payload : Option Payload)
    (h : (doInternal env c payload).transportCalled = false) :
    ∃ c2 e, doInternal env c payload = failBeforeRequest env c2 [] e := by
  rcases doInternal_cases env c payload with
    ⟨c2, e, _, heq⟩ | ⟨c2, bs, _, _, heq⟩ | ⟨c2, bs, req, e, _, _, _, heq⟩ |
    ⟨c2, bs, req, hP, hnr, hG, hrest⟩
  · exact ⟨c2, e, heq⟩
  · exact ⟨c2, .createRequestError, heq⟩
  · exact ⟨c2, e, heq⟩
  · exfalso
    rcases hrest with ⟨hT, heq⟩ | ⟨resp, hT, heq⟩
    · rw [heq, finishExchange_transportCalled] at h
      exact absurd h (by decide)
    · rw [heq, handleResponse_transportCalled] at h
      exact absurd h (by decide)

/-- A doInternal run that invoked the transport encoded its payload, built
the request, passed the gate, and continued into the nil-response crash or
into handleResponse. -/
theorem doInternal_dispatched (env : Env) (c : Client)
    (payload : Option Payload)
    (h : (doInternal env c payload).transportCalled = true) :
    ∃ c2 bs request,
      processOutgoingPayload (applyContextDependentHeaders env c) payload =
        (c2, .ok bs) ∧
      env.newRequestOK = true ∧
      conformsToReq014 env.strictREQ014 c2 (HttpRequest.mk []) =
        (request, none) ∧
      ((env.transportResp = none ∧
          doInternal env c payload =
            finishExchange env c2 true [.debugL] none none .crashed) ∨
        (∃ resp, env.transportResp = some resp ∧
          doInternal env c payload = handleResponse env c2 request resp)) := by
  rcases doInternal_cases env c payload with
    ⟨c2, e, _, heq⟩ | ⟨c2, bs, _, _, heq⟩ | ⟨c2, bs, req, e, _, _, _, heq⟩ |
    hdisp
  · exfalso
    rw [heq, failBeforeRequest_transportCalled] at h
    exact absurd h (by decide)
  · exfalso
    rw [heq, failBeforeRequest_transportCalled] at h
    exact absurd h (by decide)
  · exfalso
    rw [heq, failBeforeRequest_transportCalled] at h
    exact absurd h (by decide)
  · exact hdisp

theorem failBeforeRequest_client (env : Env) (c : Client)
    (logs : List LogLevel) (e : GoError) :
    (failBeforeRequest env c logs e).client =
      { c with statusCode := 500, internalError := true,
               duration := env.elapsed } := rfl

theorem failAfterRequest_client (env : Env) (c : Client)
    (logs : List LogLevel) (r s : Option Proto) (e : GoError) :
    (failAfterRequest env c logs r s e).client =
      { c with statusCode := 500, duration := env.elapsed } := rfl

theorem finishExchange_client (env : Env) (c : Client) (tc : Bool)
    (logs : List LogLevel) (r s : Option Proto) (res : ExchangeResult) :
    (finishExchange env c tc logs r s res).client =
      { c with duration := env.elapsed } := rfl

theorem processResponseData_responseIsError (env : Env) (c : Client)
    (body : List Nat) (ct : String) :
    (processResponseData env c body ct).client.responseIsError =
      c.responseIsError := by
  obtain ⟨rr, hrr⟩ := processResponseData_frame env c body ct
  rw [hrr]

theorem processResponseData_keepRawResponse (env : Env) (c : Client)
    (body : List Nat) (ct : String) :
    (processResponseData env c body ct).client.keepRawResponse =
      c.keepRawResponse := by
  obtain ⟨rr, hrr⟩ := processResponseData_frame env c body ct
  rw [hrr]

theorem processResponseData_internalError (env : Env) (c : Client)
    (body : List Nat) (ct : String) :
    (processResponseData env c body ct).client.internalError =
      c.internalError := by
  obtain ⟨rr, hrr⟩ := processResponseData_frame env c body ct
  rw [hrr]

theorem processResponseData_statsdClient (env : Env) (c : Client)
    (body : List Nat) (ct : String) :
    (processResponseData env c body ct).client.statsdClient =
      c.statsdClient := by
  obtain ⟨rr, hrr⟩ := processResponseData_frame env c body ct
  rw [hrr]

theorem processResponseData_statusCode (env : Env) (c : Client)
    (body : List Nat) (ct : String) :
    (processResponseData env c body ct).client.statusCode =
      c.statusCode := by
  obtain ⟨rr, hrr⟩ := processResponseData_frame env c body ct
  rw [hrr]

/-- Every handleResponse exit leaves the error-classification flag exactly
as the status-code range test set it. -/
theorem handleResponse_responseIsError (env : Env) (c : Client)
    (request : HttpRequest) (resp : HttpResponse) :
    (handleResponse env c request resp).client.responseIsError =
      (decide (resp.statusCode < 200) || decide (resp.statusCode ≥ 300)) := by
  unfold handleResponse
  dsimp only
  split
  · rfl
  · split
    · rfl
    · split
      · rw [failAfterRequest_client]
        show (processResponseData env _ _ _).client.responseIsError = _
        rw [processResponseData_responseIsError]
        split <;> rfl
      · rw [finishExchange_client]
        show (processResponseData env _ _ _).client.responseIsError = _
        rw [processResponseData_responseIsError]
        split <;> rfl

/-- Every handleResponse exit leaves the raw-response retention flag, the
internal-error state and the statsd configuration untouched. -/
theorem handleResponse_client_frame (env : Env) (c : Client)
    (request : HttpRequest) (resp : HttpResponse) :
    (handleResponse env c request resp).client.keepRawResponse =
        c.keepRawResponse ∧
      (handleResponse env c request resp).client.internalError =
        c.internalError ∧
      (handleResponse env c request resp).client.statsdClient =
        c.statsdClient := by
  unfold handleResponse
  dsimp only
  split
  · exact ⟨rfl, rfl, rfl⟩
  · split
    · exact ⟨rfl, rfl, rfl⟩
    · split
      · rw [failAfterRequest_client]
        refine ⟨?_, ?_, ?_⟩ <;>
          simp only [processResponseData_keepRawResponse,
            processResponseData_internalError,
            processResponseData_statsdClient] <;>
          split <;> rfl
      · rw [finishExchange_client]
        refine ⟨?_, ?_, ?_⟩ <;>
          simp only [processResponseData_keepRawResponse,
            processResponseData_internalError,
            processResponseData_statsdClient] <;>
          split <;> rfl

/-- On a non-empty body the resolved decode target follows the precedence
written in processResponseData: the prototype registered for the exact
status code, else the error prototype when the response was classified as
an error, else the success prototype. -/
theorem processResponseData_resolved (env : Env) (c : Client)
    (body : List Nat) (ct : String) (hb : 0 < body.length) :
    (processResponseData env c body ct).resolved =
      (match plookup c.customPrototypes c.statusCode with
       | some p => some p
       | none =>
           if c.responseIsError then c.errorPrototype else c.prototype) := by
  unfold processResponseData
  rw [if_pos hb]
  dsimp only
  split
  next proto heq =>
    split
    · split <;> exact heq.symm
    · exact heq.symm
  next heq => exact heq.symm

/-- On an empty body no decode target is resolved. -/
theorem processResponseData_resolved_empty (env : Env) (c : Client)
    (ct : String) :
    (processResponseData env c [] ct).resolved = none := rfl

/-- At most one target is saturated: the saturated target, when any, is the
resolved one. -/
theorem processResponseData_saturated (env : Env) (c : Client)
    (body : List Nat) (ct : String) :
    (processResponseData env c body ct).saturated = none ∨
      (processResponseData env c body ct).saturated =
        (processResponseData env c body ct).resolved := by
  unfold processResponseData
  dsimp only
  split
  · split
    · split
      · split
        · right; rfl
        · left; rfl
      · left; rfl
    · left; rfl
  · left; rfl

/-- The json-decode error of processResponseData occurs only on the json
content type with a resolved target, and the non-json soft path stores the
body in the raw-response buffer without error. -/
theorem processResponseData_nonjson (env : Env) (c : Client)
    (body : List Nat) (ct : String) (proto : Proto) (hb : 0 < body.length)
    (hct : ct ≠ jsonType)
    (hres : (processResponseData env c body ct).resolved = some proto) :
    (processResponseData env c body ct).err = none ∧
      (processResponseData env c body ct).client.rawresponse = body ∧
      .infoL ∈ (processResponseData env c body ct).logs := by
  have hr : (match plookup c.customPrototypes c.statusCode with
      | some p => some p
      | none =>
          if c.responseIsError then c.errorPrototype else c.prototype) =
      some proto := by
    rw [← processResponseData_resolved env c body ct hb]
    exact hres
  unfold processResponseData
  rw [if_pos hb]
  dsimp only
  rw [hr]
  dsimp only
  rw [if_neg hct]
  exact ⟨rfl, rfl, by simp⟩

/-- The statsd events of a handleResponse run on a client outside the
internal-error state with a configured delegate: exactly one counter
increment and one timing measurement. -/
theorem handleResponse_statsd_counts (env : Env) (c : Client)
    (request : HttpRequest) (resp : HttpResponse)
    (hie : c.internalError = false) (hsc : c.statsdClient = true) :
    (((handleResponse env c request resp).statsd.filter
        StatsdEvent.isIncr).length = 1) ∧
      (((handleResponse env c request resp).statsd.filter
        StatsdEvent.isTiming).length = 1) := by
  unfold handleResponse
  dsimp only
  split
  · exact cleanup_counts env _ hie hsc
  · split
    · exact cleanup_counts env _ hie hsc
    · split
      · refine cleanup_counts env _ ?_ ?_ <;>
          simp only [processResponseData_internalError,
            processResponseData_statsdClient] <;>
          split <;> simp [hie, hsc]
      · refine cleanup_counts env _ ?_ ?_ <;>
          simp only [processResponseData_internalError,
            processResponseData_statsdClient] <;>
          split <;> simp [hie, hsc]

/-- The statsd events of a handleResponse run without a configured
delegate: none. -/
theorem handleResponse_statsd_noclient (env : Env) (c : Client)
    (request : HttpRequest) (resp : HttpResponse)
    (hsc : c.statsdClient = false) :
    (handleResponse env c request resp).statsd = [] := by
  unfold handleResponse
  dsimp only
  split
  · exact cleanup_of_noStatsd env _ hsc
  · split
    · exact cleanup_of_noStatsd env _ hsc
    · split
      · refine cleanup_of_noStatsd env _ ?_
        simp only [processResponseData_statsdClient]
        split <;> simp [hsc]
      · refine cleanup_of_noStatsd env _ ?_
        simp only [processResponseData_statsdClient]
        split <;> simp [hsc]

theorem failAfterRequest_resolved (env : Env) (c : Client)
    (logs : List LogLevel) (r s : Option Proto) (e : GoError) :
    (failAfterRequest env c logs r s e).resolved = r := rfl

theorem failAfterRequest_saturated (env : Env) (c : Client)
    (logs : List LogLevel) (r s : Option Proto) (e : GoError) :
    (failAfterRequest env c logs r s e).saturated = s := rfl

theorem finishExchange_resolved (env : Env) (c : Client) (tc : Bool)
    (logs : List LogLevel) (r s : Option Proto) (res : ExchangeResult) :
    (finishExchange env c tc logs r s res).resolved = r := rfl

theorem finishExchange_saturated (env : Env) (c : Client) (tc : Bool)
    (logs : List LogLevel) (r s : Option Proto) (res : ExchangeResult) :
    (finishExchange env c tc logs r s res).saturated = s := rfl

/-- The client produced by the encode stage agrees with the original
client on every field except the header map. -/
theorem pop_fst_eq (env : Env) (c : Client) (payload : Option Payload)
    (c2 : Client) (r : Except GoError (List Nat))
    (hP : processOutgoingPayload (applyContextDependentHeaders env c)
      payload = (c2, r)) :
    ∃ hs, c2 = { c with headers := hs } := by
  obtain ⟨hs0, hA⟩ := applyContextDependentHeaders_frame env c
  obtain ⟨hs1, hB⟩ := processOutgoingPayload_frame
    (applyContextDependentHeaders env c) payload
  refine ⟨hs1, ?_⟩
  have h1 : (processOutgoingPayload (applyContextDependentHeaders env c)
      payload).1 = c2 := by rw [hP]
  rw [← h1, hB, hA]

/-- No stage of doInternal flips the raw-response retention flag. -/
theorem doInternal_keepRawResponse (env : Env) (c : Client)
    (payload : Option Payload) :
    (doInternal env c payload).client.keepRawResponse =
      c.keepRawResponse := by
  rcases doInternal_cases env c payload with
    ⟨c2, e, hP, heq⟩ | ⟨c2, bs, hP, _, heq⟩ |
    ⟨c2, bs, request, e, hP, _, _, heq⟩ |
    ⟨c2, bs, request, hP, _, _, ⟨_, heq⟩ | ⟨resp, _, heq⟩⟩ <;>
    obtain ⟨hs, hc2⟩ := pop_fst_eq env c payload c2 _ hP
  · rw [heq, failBeforeRequest_client, hc2]
  · rw [heq, failBeforeRequest_client, hc2]
  · rw [heq, failBeforeRequest_client, hc2]
  · rw [heq, finishExchange_client, hc2]
  · rw [heq, (handleResponse_client_frame env c2 request resp).1, hc2]

/-- Resolved and saturated targets of a handleResponse run that read a
non-empty body: the resolution follows the three-tier precedence over the
original prototypes and the received status code, and the saturated
target, when any, is the resolved one. -/
theorem handleResponse_targets (env : Env) (c : Client)
    (request : HttpRequest) (resp : HttpResponse) (body : List Nat)
    (hte : env.transportErr = none) (hbr : resp.bodyRead = some body)
    (hb : 0 < body.length) :
    (handleResponse env c request resp).resolved =
      (match plookup c.customPrototypes resp.statusCode with
       | some p => some p
       | none =>
           if (decide (resp.statusCode < 200) ||
               decide (resp.statusCode ≥ 300)) = true then
             c.errorPrototype
           else c.prototype) ∧
    ((handleResponse env c request resp).saturated = none ∨
      (handleResponse env c request resp).saturated =
        (handleResponse env c request resp).resolved) := by
  unfold handleResponse
  dsimp only
  rw [hte]
  dsimp only
  rw [hbr]
  dsimp only
  constructor
  · split
    · rw [failAfterRequest_resolved,
        processResponseData_resolved _ _ _ _ hb]
      cases hk : c.keepRawResponse
      · rw [if_neg (by simp [hk])]
      · rw [if_pos (by simp [hk])]
    · rw [finishExchange_resolved,
        processResponseData_resolved _ _ _ _ hb]
      cases hk : c.keepRawResponse
      · rw [if_neg (by simp [hk])]
      · rw [if_pos (by simp [hk])]
  · split
    · rw [failAfterRequest_saturated, failAfterRequest_resolved]
      exact processResponseData_saturated env _ body _
    · rw [finishExchange_saturated, finishExchange_resolved]
      exact processResponseData_saturated env _ body _

-- endregion

-- region claims

/-- C1: the compliance gate fails an exchange if and only if the strict
flag is enabled and one of the three mandated headers (Request-ID,
Request-Source, Calling-Service) is absent from the outgoing header map;
in that case Do returns status 500 with a non-nil error and the transport
is never invoked, and in every other case the missing-header condition
never blocks dispatch. -/
theorem strict_req014_gate_blocks_iff :
    (∀ strict c req, ((conformsToReq014 strict c req).2).isSome =
      (strict && !presentAll3 c.headers)) ∧
    (∀ env c m payload u, env.strictREQ014 = true →
      presentAll3 (applyContextDependentHeaders env c).headers = false →
      c.cb = none → c.endpoint = some u →
      (∃ e, (Do env c m payload).result = .ret 500 (some e)) ∧
        (Do env c m payload).transportCalled = false) ∧
    (∀ env c m payload u c2 bs,
      c.cb = none → c.endpoint = some u →
      (env.strictREQ014 = false ∨
        presentAll3 (applyContextDependentHeaders env c).headers = true) →
      processOutgoingPayload (applyContextDependentHeaders env c) payload =
        (c2, .ok bs) →
      env.newRequestOK = true →
      (Do env c m payload).transportCalled = true) := by
  refine ⟨conformsToReq014_err_iff, ?_, ?_⟩
  · intro env c m payload u hstrict hmiss hcb hep
    rw [Do_eq_doInternal env c m payload u hep hcb]
    rcases doInternal_cases env c payload with
      ⟨c2, e, hP, heq⟩ | ⟨c2, bs, hP, _, heq⟩ |
      ⟨c2, bs, request, e, hP, _, _, heq⟩ |
      ⟨c2, bs, request, hP, hnr, hG, hrest⟩
    · rw [heq]
      exact ⟨⟨e, rfl⟩, rfl⟩
    · rw [heq]
      exact ⟨⟨.createRequestError, rfl⟩, rfl⟩
    · rw [heq]
      exact ⟨⟨e, rfl⟩, rfl⟩
    · exfalso
      have hmono := presentAll3_processOutgoingPayload
        (applyContextDependentHeaders env c) payload
      rw [hP] at hmono
      dsimp at hmono
      have hpre : presentAll3 c2.headers = false := by rw [hmono]; exact hmiss
      have hiff := conformsToReq014_err_iff env.strictREQ014 c2
        (HttpRequest.mk [])
      rw [hG, hstrict, hpre] at hiff
      simp at hiff
  · intro env c m payload u c2 bs hcb hep hpass hPok hnr
    rw [Do_eq_doInternal env c m payload u hep hcb]
    rcases doInternal_cases env c payload with
      ⟨c3, e, hP, heq⟩ | ⟨c3, bs3, hP, hnr3, heq⟩ |
      ⟨c3, bs3, request, e, hP, _, hG, heq⟩ |
      ⟨c3, bs3, request, hP, _, _, hrest⟩
    · rw [hPok] at hP
      simp at hP
    · rw [hPok] at hP
      rw [hnr] at hnr3
      exact absurd hnr3 (by decide)
    · exfalso
      rw [hPok] at hP
      have hc : c2 = c3 := congrArg Prod.fst hP
      have hmono := presentAll3_processOutgoingPayload
        (applyContextDependentHeaders env c) payload
      rw [hPok] at hmono
      dsimp at hmono
      have hpass2 : (conformsToReq014 env.strictREQ014 c3
          (HttpRequest.mk [])).2 = none := by
        apply conformsToReq014_passes
        rcases hpass with hs | hp
        · exact .inl hs
        · refine .inr ?_
          rw [← hc, hmono]
          exact hp
      rw [hG] at hpass2
      simp at hpass2
    · rcases hrest with ⟨_, heq⟩ | ⟨resp, _, heq⟩
      · rw [heq, finishExchange_transportCalled]
      · rw [heq, handleResponse_transportCalled]

/-- Witness for C1: with the request-id provider absent under strict mode
the exchange fails with 500 and does not touch the transport, while the
fully-provided strict exchange dispatches. -/
theorem strict_req014_gate_blocks_iff_witness :
    (∃ e, (Do { sampleEnv with requestIDProvider := none } sampleClient
      "GET" none).result = .ret 500 (some e)) ∧
    (Do { sampleEnv with requestIDProvider := none } sampleClient "GET"
      none).transportCalled = false ∧
    (Do sampleEnv sampleClient "GET" none).transportCalled = true := by
  have h := strict_req014_gate_blocks_iff
  refine ⟨(h.2.1 { sampleEnv with requestIDProvider := none } sampleClient
      "GET" none "http://api.example.test" rfl (by decide) rfl rfl).1,
    (h.2.1 { sampleEnv with requestIDProvider := none } sampleClient
      "GET" none "http://api.example.test" rfl (by decide) rfl rfl).2,
    h.2.2 sampleEnv sampleClient "GET" none "http://api.example.test"
      (applyContextDependentHeaders sampleEnv sampleClient) [] rfl rfl
      (.inr (by decide)) rfl rfl⟩

/-- C2: when the configured circuit breaker returns a nil result slot with
a non-nil error (breaker open or half-open), Do returns the fixed
dependency-failure status 424 alongside that error instead of propagating
the nil result. -/
theorem breaker_nil_result_maps_to_failed_dependency (env : Env)
    (c : Client) (m : String) (payload : Option Payload) (u : String)
    (e : GoError) (hep : c.endpoint = some u) :
    (c.cb = some (.rejectWith e) →
      (Do env c m payload).result = .ret 424 (some e) ∧
        (Do env c m payload).transportCalled = false) ∧
    (c.cb = some (.runAndOverride none (some e)) →
      (doInternal env c payload).result ≠ .crashed →
      (Do env c m payload).result = .ret 424 (some e)) := by
  constructor
  · intro hcb
    unfold Do
    rw [hep, hcb]
    exact ⟨rfl, rfl⟩
  · intro hcb hnc
    unfold Do
    rw [hep, hcb]
    dsimp only
    rcases hres : (doInternal env c payload).result with ⟨s, e0⟩ | _
    · rfl
    · exact absurd hres hnc

/-- Witness for C2: a breaker that rejects with a concrete error makes Do
return 424 with that error. -/
theorem breaker_nil_result_maps_to_failed_dependency_witness :
    (Do sampleEnv (SetCircuitBreaker sampleClient
        (.rejectWith (.breakerError 3))) "GET" none).result =
      .ret 424 (some (.breakerError 3)) := by
  exact ((breaker_nil_result_maps_to_failed_dependency sampleEnv
    (SetCircuitBreaker sampleClient (.rejectWith (.breakerError 3))) "GET"
    none "http://api.example.test" (.breakerError 3) rfl).1 rfl).1

/-- C3 (divergence): in the current client source the status code of the
response is read before the transport error is inspected, so a dispatched
exchange whose transport call returns a nil response with a non-nil error
(every timeout) dereferences the nil response and crashes instead of
reaching the transport-error branch that would return 500 with that
error. -/
theorem transport_error_crashes_before_error_branch (env : Env)
    (c : Client) (payload : Option Payload) (e : GoError)
    (hT : env.transportResp = none) (_hte : env.transportErr = some e)
    (hd : (doInternal env c payload).transportCalled = true) :
    (doInternal env c payload).result = .crashed := by
  obtain ⟨c2, bs, request, hP, hnr, hG, hrest⟩ :=
    doInternal_dispatched env c payload hd
  rcases hrest with ⟨_, heq⟩ | ⟨resp, hT2, _⟩
  · rw [heq, finishExchange_result]
  · rw [hT] at hT2
    exact absurd hT2 (by simp)

/-- Witness for C3: the concrete timed-out exchange is dispatched and
crashes. -/
theorem transport_error_crashes_before_error_branch_witness :
    timeoutEnv.transportResp = none ∧
      timeoutEnv.transportErr = some (.transportError true) ∧
      (doInternal timeoutEnv sampleClient none).transportCalled = true ∧
      (doInternal timeoutEnv sampleClient none).result = .crashed := by
  refine ⟨rfl, rfl, by decide, ?_⟩
  exact transport_error_crashes_before_error_branch timeoutEnv sampleClient
    none (.transportError true) rfl rfl (by decide)

/-- C4: on a dispatched exchange with a non-empty body, the decode target
is resolved by exactly this precedence: the prototype registered for the
exact status code, else the error prototype when the status code lies
outside [200,300), else the success prototype; and at most one target is
saturated per response. -/
theorem decode_target_precedence (env : Env) (c : Client)
    (payload : Option Payload) (resp : HttpResponse) (body : List Nat)
    (hT : env.transportResp = some resp) (hte : env.transportErr = none)
    (hbr : resp.bodyRead = some body) (hb : 0 < body.length)
    (hd : (doInternal env c payload).transportCalled = true) :
    (doInternal env c payload).resolved =
      (match plookup c.customPrototypes resp.statusCode with
       | some p => some p
       | none =>
           if resp.statusCode < 200 ∨ resp.statusCode ≥ 300 then
             c.errorPrototype
           else c.prototype) ∧
    ((doInternal env c payload).saturated = none ∨
      (doInternal env c payload).saturated =
        (doInternal env c payload).resolved) := by
  obtain ⟨c2, bs, request, hP, hnr, hG, hrest⟩ :=
    doInternal_dispatched env c payload hd
  rcases hrest with ⟨hT2, _⟩ | ⟨resp2, hT2, heq⟩
  · rw [hT] at hT2
    exact absurd hT2 (by simp)
  · rw [hT] at hT2
    have hr2 : resp2 = resp := by injection hT2.symm
    subst hr2
    obtain ⟨hs, hc2⟩ := pop_fst_eq env c payload c2 _ hP
    have htg := handleResponse_targets env c2 request resp2 body hte hbr hb
    rw [heq]
    constructor
    · rw [htg.1, hc2]
      by_cases hlo : resp2.statusCode < 200
      · by_cases hhi : resp2.statusCode ≥ 300 <;> simp [hlo, hhi]
      · by_cases hhi : resp2.statusCode ≥ 300 <;> simp [hlo, hhi]
    · exact htg.2

/-- Witness for C4: a 403 response with a 403-specific prototype resolves
to that prototype rather than to the generic error prototype, and
saturates exactly it. -/
theorem decode_target_precedence_witness :
    (doInternal env403 client403 none).resolved = some 9 ∧
      (doInternal env403 client403 none).saturated = some 9 := by
  have h := decode_target_precedence env403 client403 none resp403
    [123, 125] rfl rfl rfl (by decide) (by decide)
  refine ⟨?_, by decide⟩
  rw [h.1]
  rfl

/-- C5: after any exchange that received a response, the flag returned by
StatusCodeIsError is true exactly when the received status code lies
outside [200,300), regardless of the response body. -/
theorem status_code_error_flag_iff (env : Env) (c : Client)
    (payload : Option Payload) (resp : HttpResponse)
    (hT : env.transportResp = some resp)
    (hd : (doInternal env c payload).transportCalled = true) :
    StatusCodeIsError (doInternal env c payload).client = true ↔
      (resp.statusCode < 200 ∨ resp.statusCode ≥ 300) := by
  obtain ⟨c2, bs, request, hP, hnr, hG, hrest⟩ :=
    doInternal_dispatched env c payload hd
  rcases hrest with ⟨hT2, _⟩ | ⟨resp2, hT2, heq⟩
  · rw [hT] at hT2
    exact absurd hT2 (by simp)
  · rw [hT] at hT2
    have hr2 : resp2 = resp := by injection hT2.symm
    subst hr2
    rw [heq]
    unfold StatusCodeIsError
    rw [handleResponse_responseIsError]
    simp [decide_eq_true_iff]

/-- Witness for C5: a 404 response with an empty body leaves the flag
true, and a 200 response leaves it false. -/
theorem status_code_error_flag_iff_witness :
    StatusCodeIsError (doInternal env404 sampleClient none).client =
        true ∧
      StatusCodeIsError (doInternal sampleEnv sampleClient none).client =
        false := by
  constructor
  · exact (status_code_error_flag_iff env404 sampleClient none
      resp404empty rfl (by decide)).2 (by decide)
  · have h := status_code_error_flag_iff sampleEnv sampleClient none
      resp200 rfl (by decide)
    rcases hv : StatusCodeIsError (doInternal sampleEnv sampleClient
        none).client with _ | _
    · rfl
    · exfalso
      rw [hv] at h
      rcases h.1 rfl with hbad | hbad <;> revert hbad <;> decide

/-- C7: with a non-json content type a payload that is neither a byte
slice nor a string fails encoding and Do returns 500 with that error
before the transport is touched; every successful encoding sets the
Content-Length header to the exact encoded byte count. -/
theorem payload_encoding_content_length :
    (∀ c p, hget c.headers contentTypeHeader ≠ some jsonType →
      p.rawView = none →
      (processOutgoingPayload c (some p)).2 = .error .convertError) ∧
    (∀ env c m p u, c.cb = none → c.endpoint = some u →
      hget c.headers contentTypeHeader ≠ some jsonType →
      p.rawView = none →
      (Do env c m (some p)).result = .ret 500 (some .convertError) ∧
        (Do env c m (some p)).transportCalled = false) ∧
    (∀ c p c2 bs,
      processOutgoingPayload c (some p) = (c2, .ok bs) →
      hget c2.headers contentLengthHeader = some (toString bs.length)) := by
  have henc : ∀ c p, hget c.headers contentTypeHeader ≠ some jsonType →
      p.rawView = none →
      processOutgoingPayload c (some p) = (c, .error .convertError) := by
    intro c p hct hraw
    unfold processOutgoingPayload
    dsimp only
    rw [if_neg hct, hraw]
  refine ⟨fun c p hct hraw => by rw [henc c p hct hraw], ?_, ?_⟩
  · intro env c m p u hcb hep hct hraw
    rw [Do_eq_doInternal env c m (some p) u hep hcb]
    have hcta : hget (applyContextDependentHeaders env c).headers
        contentTypeHeader ≠ some jsonType := by
      rw [applyContextDependentHeaders_hget_other env c contentTypeHeader
        contentType_ne_requestID contentType_ne_requestSource]
      exact hct
    have hpop := henc (applyContextDependentHeaders env c) p hcta hraw
    rcases doInternal_cases env c (some p) with
      ⟨c2, e, hP, heq⟩ | ⟨c2, bs, hP, _, _⟩ |
      ⟨c2, bs, request, e, hP, _, _, _⟩ |
      ⟨c2, bs, request, hP, _, _, _⟩
    · rw [hpop] at hP
      have he : e = .convertError := by
        have := congrArg Prod.snd hP
        dsimp at this
        injection this.symm
      rw [heq, he]
      exact ⟨rfl, rfl⟩
    · rw [hpop] at hP
      simp at hP
    · rw [hpop] at hP
      simp at hP
    · rw [hpop] at hP
      simp at hP
  · intro c p c2 bs h
    unfold processOutgoingPayload at h
    dsimp only at h
    by_cases hct : hget c.headers contentTypeHeader = some jsonType
    · rw [if_pos hct] at h
      rcases hj : p.jsonEnc with _ | bs0
      · rw [hj] at h
        simp at h
      · rw [hj] at h
        have h1 := congrArg Prod.fst h
        have h2 := congrArg Prod.snd h
        dsimp at h1 h2
        have hbs : bs0 = bs := by injection h2
        rw [← h1, hbs]
        exact hget_hset_self c.headers contentLengthHeader
          (toString bs.length)
    · rw [if_neg hct] at h
      rcases hr : p.rawView with _ | (bs0 | s)
      · rw [hr] at h
        simp at h
      · rw [hr] at h
        have h1 := congrArg Prod.fst h
        have h2 := congrArg Prod.snd h
        dsimp at h1 h2
        have hbs : bs0 = bs := by injection h2
        rw [← h1, hbs]
        exact hget_hset_self c.headers contentLengthHeader
          (toString bs.length)
      · rw [hr] at h
        have h1 := congrArg Prod.fst h
        have h2 := congrArg Prod.snd h
        dsimp at h1 h2
        have hbs : strBytes s = bs := by injection h2
        rw [← h1, hbs]
        exact hget_hset_self c.headers contentLengthHeader
          (toString bs.length)

/-- Witness for C7: a plain-text client with an unconvertible payload gets
500 without dispatch, and a json client encoding a two-byte body carries
Content-Length 2. -/
theorem payload_encoding_content_length_witness :
    (Do sampleEnv (SetContentType sampleClient "text/plain") "POST"
        (some { jsonEnc := some [1], rawView := none })).result =
      .ret 500 (some .convertError) ∧
    (Do sampleEnv (SetContentType sampleClient "text/plain") "POST"
        (some { jsonEnc := some [1], rawView := none })).transportCalled =
      false ∧
    hget (processOutgoingPayload sampleClient
        (some { jsonEnc := some [123, 125], rawView := none })).1.headers
      contentLengthHeader = some "2" := by
  have h := payload_encoding_content_length
  have h2 := h.2.1 sampleEnv (SetContentType sampleClient "text/plain")
    "POST" { jsonEnc := some [1], rawView := none }
    "http://api.example.test" rfl rfl (by decide) rfl
  refine ⟨h2.1, h2.2, ?_⟩
  have h3 := h.2.2 sampleClient { jsonEnc := some [123, 125], rawView := none }
    (processOutgoingPayload sampleClient
      (some { jsonEnc := some [123, 125], rawView := none })).1
    [123, 125] rfl
  exact h3

/-- C8: an exchange that fails before the transport is attempted emits no
statsd measurement; a dispatched exchange with a configured delegate emits
exactly one counter increment and one timing measurement; without a
delegate nothing is emitted. -/
theorem statsd_emission_discipline (env : Env) (c : Client) (m : String)
    (payload : Option Payload) (hie : c.internalError = false)
    (hcb : c.cb = none) :
    ((Do env c m payload).transportCalled = false →
      (Do env c m payload).statsd = []) ∧
    ((Do env c m payload).transportCalled = true → c.statsdClient = true →
      (((Do env c m payload).statsd.filter StatsdEvent.isIncr).length = 1 ∧
        ((Do env c m payload).statsd.filter
          StatsdEvent.isTiming).length = 1)) ∧
    (c.statsdClient = false → (Do env c m payload).statsd = []) := by
  rcases hep : c.endpoint with _ | u
  · refine ⟨?_, ?_, ?_⟩
    · intro _
      unfold Do
      rw [hep]
    · intro htc _
      exfalso
      unfold Do at htc
      rw [hep] at htc
      dsimp only at htc
      exact absurd htc (by decide)
    · intro _
      unfold Do
      rw [hep]
  · rw [Do_eq_doInternal env c m payload u hep hcb]
    refine ⟨?_, ?_, ?_⟩
    · intro h
      obtain ⟨c2, e, heq⟩ := doInternal_not_dispatched env c payload h
      rw [heq, failBeforeRequest_statsd]
    · intro h hsc
      obtain ⟨c2, bs, request, hP, hnr, hG, hrest⟩ :=
        doInternal_dispatched env c payload h
      obtain ⟨hs, hc2⟩ := pop_fst_eq env c payload c2 _ hP
      rcases hrest with ⟨_, heq⟩ | ⟨resp, _, heq⟩
      · rw [heq, finishExchange_statsd]
        refine cleanup_counts env _ ?_ ?_ <;> rw [hc2]
        · exact hie
        · exact hsc
      · rw [heq]
        refine handleResponse_statsd_counts env c2 request resp ?_ ?_ <;>
          rw [hc2]
        · exact hie
        · exact hsc
    · intro hsc
      rcases doInternal_cases env c payload with
        ⟨c2, e, hP, heq⟩ | ⟨c2, bs, hP, _, heq⟩ |
        ⟨c2, bs, request, e, hP, _, _, heq⟩ |
        ⟨c2, bs, request, hP, _, _, hrest⟩
      · rw [heq, failBeforeRequest_statsd]
      · rw [heq, failBeforeRequest_statsd]
      · rw [heq, failBeforeRequest_statsd]
      · obtain ⟨hs, hc2⟩ := pop_fst_eq env c payload c2 _ hP
        rcases hrest with ⟨_, heq⟩ | ⟨resp, _, heq⟩
        · rw [heq, finishExchange_statsd]
          refine cleanup_of_noStatsd env _ ?_
          rw [hc2]
          exact hsc
        · rw [heq]
          refine handleResponse_statsd_noclient env c2 request resp ?_
          rw [hc2]
          exact hsc

/-- Witness for C8: a strict exchange missing its request id emits no
statsd events even with a delegate configured, while the dispatched
exchange with a delegate emits one increment and one timing. -/
theorem statsd_emission_discipline_witness :
    (Do { sampleEnv with requestIDProvider := none }
        (SetStatsdDelegate sampleClient "api-call" []) "GET" none).statsd =
      [] ∧
    ((Do sampleEnv (SetStatsdDelegate sampleClient "api-call" []) "GET"
        none).statsd.filter StatsdEvent.isIncr).length = 1 ∧
    ((Do sampleEnv (SetStatsdDelegate sampleClient "api-call" []) "GET"
        none).statsd.filter StatsdEvent.isTiming).length = 1 := by
  refine ⟨(statsd_emission_discipline
      { sampleEnv with requestIDProvider := none }
      (SetStatsdDelegate sampleClient "api-call" []) "GET" none rfl
      rfl).1 (by decide), ?_, ?_⟩
  · exact ((statsd_emission_discipline sampleEnv
      (SetStatsdDelegate sampleClient "api-call" []) "GET" none rfl
      rfl).2.1 (by decide) rfl).1
  · exact ((statsd_emission_discipline sampleEnv
      (SetStatsdDelegate sampleClient "api-call" []) "GET" none rfl
      rfl).2.1 (by decide) rfl).2

/-- C9: the raw-response accessor is idempotent and mutates nothing: on a
client that never enabled retention both of two consecutive calls return
the empty byte sequence, and with retention enabled both calls return the
same bytes, namely the retained buffer. -/
theorem raw_response_idempotent (env : Env) (c : Client)
    (payload : Option Payload) :
    (c.keepRawResponse = false →
      (rawResponseCall (doInternal env c payload).client).1 = [] ∧
      (rawResponseCall
        (rawResponseCall (doInternal env c payload).client).2).1 = []) ∧
    ((rawResponseCall (doInternal env c payload).client).1 =
      (rawResponseCall
        (rawResponseCall (doInternal env c payload).client).2).1) ∧
    (c.keepRawResponse = true →
      (rawResponseCall (doInternal env c payload).client).1 =
        (doInternal env c payload).client.rawresponse) := by
  have hkeep := doInternal_keepRawResponse env c payload
  refine ⟨?_, rfl, ?_⟩
  · intro hfalse
    rw [hfalse] at hkeep
    unfold rawResponseCall RawResponse
    rw [hkeep]
    exact ⟨rfl, rfl⟩
  · intro htrue
    rw [htrue] at hkeep
    unfold rawResponseCall RawResponse
    rw [hkeep]
    rfl

/-- Witness for C9: the sample exchange without retention yields empty
bytes twice; with retention enabled both calls agree with the retained
buffer. -/
theorem raw_response_idempotent_witness :
    (rawResponseCall (doInternal sampleEnv sampleClient none).client).1 =
        [] ∧
      (rawResponseCall (doInternal sampleEnv
        (KeepRawResponse sampleClient) none).client).1 =
        (doInternal sampleEnv (KeepRawResponse sampleClient)
          none).client.rawresponse := by
  refine ⟨((raw_response_idempotent sampleEnv sampleClient none).1
    rfl).1, ?_⟩
  exact (raw_response_idempotent sampleEnv (KeepRawResponse sampleClient)
    none).2.2 rfl

/-- C10: header presence for the compliance gate means the key exists in
the outgoing header map with any value, the empty string included: a
request-source provider returning the empty string with presence true sets
the Request-Source header to the empty string and the strict gate still
passes, and in general the gate passes whenever the three keys are
present, whatever their values. -/
theorem blank_header_value_counts_as_present (env : Env) (c : Client)
    (req : HttpRequest)
    (hsrc : env.requestSourceProvider = some "")
    (hid : hmem (applyContextDependentHeaders env c).headers
      requestIDHeader = true)
    (hsvc : hmem (applyContextDependentHeaders env c).headers
      callingServiceHeader = true) :
    hget (applyContextDependentHeaders env c).headers
        requestSourceHeader = some "" ∧
      (conformsToReq014 true (applyContextDependentHeaders env c) req).2 =
        none ∧
      (∀ c0 req0, presentAll3 c0.headers = true →
        (conformsToReq014 true c0 req0).2 = none) := by
  have hv : hget (applyContextDependentHeaders env c).headers
      requestSourceHeader = some "" := by
    unfold applyContextDependentHeaders
    rw [hsrc]
    rcases env.requestIDProvider with _ | rid <;>
      exact hget_hset_self _ _ _
  refine ⟨hv, ?_, ?_⟩
  · apply conformsToReq014_passes
    refine .inr ?_
    unfold presentAll3
    rw [hid, hsvc]
    simp [hmem, hv]
  · intro c0 req0 h0
    exact conformsToReq014_passes true c0 req0 (.inr h0)

/-- Witness for C10: the sample environment with a blank request source
still sets the header (to the empty string) and passes the strict gate. -/
theorem blank_header_value_counts_as_present_witness :
    hget (applyContextDependentHeaders
        { sampleEnv with requestSourceProvider := some "" }
        sampleClient).headers requestSourceHeader = some "" ∧
      (conformsToReq014 true (applyContextDependentHeaders
        { sampleEnv with requestSourceProvider := some "" } sampleClient)
        (HttpRequest.mk [])).2 = none := by
  have h := blank_header_value_counts_as_present
    { sampleEnv with requestSourceProvider := some "" } sampleClient
    (HttpRequest.mk []) rfl (by decide) (by decide)
  exact ⟨h.1, h.2.1⟩

/-- C6 (divergence): the html scene of the specification fails on the
code.  The transport answers 200 with Content-Type text/html and the body
of the html scene while a success prototype is registered, yet the
exchange raises a decode error and returns 500, because the code hands
processResponseData the Content-Type header of the outgoing request
(application/json by default) and never the content type of the response;
and with retention never enabled the raw-response accessor returns the
empty byte sequence rather than the body. -/
theorem nonjson_response_decode_divergence :
    nonJsonEnv.transportResp =
        some { statusCode := 200, bodyRead := some nonJsonBody,
               contentType := "text/html" } ∧
      nonJsonClient.prototype = some 1 ∧
      nonJsonClient.keepRawResponse = false ∧
      0 < nonJsonBody.length ∧
      (Do nonJsonEnv nonJsonClient "GET" none).result =
        .ret 500 (some .decodeError) ∧
      RawResponse (Do nonJsonEnv nonJsonClient "GET" none).client = [] := by
  refine ⟨rfl, rfl, rfl, by decide, by decide, by decide⟩

/-- C6 (soft path actually implemented): when the Content-Type header of
the outgoing request is not json and a target was resolved on a non-empty
body, no decode error is raised, the run does not fail, the body is
stashed in the raw-response buffer and an info-level message is logged. -/
theorem nonjson_request_content_type_soft_path (env : Env) (c : Client)
    (body : List Nat) (ct : String) (proto : Proto)
    (hb : 0 < body.length) (hct : ct ≠ jsonType)
    (hres : (processResponseData env c body ct).resolved = some proto) :
    (processResponseData env c body ct).err = none ∧
      (processResponseData env c body ct).client.rawresponse = body ∧
      .infoL ∈ (processResponseData env c body ct).logs := by
  exact processResponseData_nonjson env c body ct proto hb hct hres

/-- Witness for the soft path: a client whose request content type was
overridden to text/plain stores the html body and raises no error. -/
theorem nonjson_request_content_type_soft_path_witness :
    (processResponseData nonJsonEnv (WillSaturate sampleClient (some 1))
        nonJsonBody "text/html").err = none ∧
      (processResponseData nonJsonEnv (WillSaturate sampleClient (some 1))
        nonJsonBody "text/html").client.rawresponse = nonJsonBody ∧
      .infoL ∈ (processResponseData nonJsonEnv
        (WillSaturate sampleClient (some 1)) nonJsonBody
        "text/html").logs := by
  exact nonjson_request_content_type_soft_path nonJsonEnv
    (WillSaturate sampleClient (some 1)) nonJsonBody "text/html" 1
    (by decide) (by decide) (by decide)

-- endregion

end Cbapiclient
